import Mathlib

/-!
Verification of the task-list client controller (static/js/script.js).

The live code (the top half of the file is a dead commented-out copy) consists
of four operations: `fetchTodos`, `displayTodos`, `addTodo`, `deleteTodo`,
`toggleTodo`.  We embed them shallowly: the DOM list container is a record of
its innerHTML string and appended children; network calls become explicit
outcome parameters (response status, JSON parse result, or transport error);
side effects (requests issued, console.error logs, alerts, fetchTodos
invocations) are collected in result records.
-/

namespace TodoApp

/-- Characters removed by JavaScript's `String.prototype.trim` (ECMAScript
WhiteSpace and LineTerminator): space, tab, LF, VT, FF, CR, NBSP, BOM and the
Unicode space separators and line/paragraph separators. -/
def isJsWhitespace (c : Char) : Bool :=
  c = ' ' || c = '\t' || c = '\n' || c = '\x0b' || c = '\x0c' || c = '\r' ||
  c = ' ' || c = '﻿' || c = ' ' ||
  (' ' ≤ c && c ≤ ' ') ||
  c = ' ' || c = ' ' || c = ' ' || c = ' ' || c = '　'

/-- JavaScript's `String.prototype.trim`: strips leading and trailing
whitespace. -/
def jsTrim (s : String) : String :=
  List.asString
    (((s.toList.dropWhile isJsWhitespace).reverse.dropWhile isJsWhitespace).reverse)

/-- A task record as delivered by `GET /api/todos`:
`{id: int, title: string, completed: bool, created_at: string}`. -/
structure Todo where
  id : Int
  title : String
  completed : Bool
  created_at : String
deriving DecidableEq, Repr

/-- A `div` element created by `displayTodos` for one todo:
`document.createElement('div')` with its `className` and `innerHTML` set. -/
structure TodoItem where
  className : String
  innerHTML : String
deriving DecidableEq, Repr

/-- The `#todoList` container element: `html` is the string last assigned to
`innerHTML` (assignment replaces all children), `children` are the elements
appended afterwards with `appendChild`. -/
structure TodoListEl where
  html : String
  children : List TodoItem
deriving DecidableEq, Repr

/-- `todoList.innerHTML = ''` — clears the container unconditionally. -/
def clearList (_ : TodoListEl) : TodoListEl :=
  { html := "", children := [] }

/-- `todoList.appendChild(todoItem)`. -/
def appendChild (el : TodoListEl) (item : TodoItem) : TodoListEl :=
  { el with children := el.children ++ [item] }

/-- The empty-state markup assigned to `todoList.innerHTML` when the todo
array is empty (template literal from the source, whitespace preserved). -/
def emptyStateHTML : String :=
  "\n            <div class=\"empty-state\">\n                <i class=\"fas fa-clipboard-list\"></i>\n                <p>No tasks yet. Add one to get started!</p>\n            </div>\n        "

/-- Template chunk before `${todo.title}`. -/
def chunkBeforeTitle : String :=
  "\n            <div class=\"todo-content\">\n                <span class=\"todo-text\">"

/-- Template chunk between `${todo.title}` and `${todo.created_at}`. -/
def chunkAfterTitle : String :=
  "</span>\n                <span class=\"todo-time\"><i class=\"far fa-clock\"></i> "

/-- Template chunk between `${todo.created_at}` and the toggle `onclick` id. -/
def chunkBeforeToggleId : String :=
  "</span>\n            </div>\n            <div class=\"todo-actions\">\n                <button class=\"toggle\" onclick=\"toggleTodo("

/-- Template chunk between the toggle `onclick` id and the toggle icon class. -/
def chunkBeforeToggleIcon : String :=
  ")\">\n                    <i class=\"fas "

/-- Template chunk between the toggle icon class and the toggle label. -/
def chunkBeforeToggleLabel : String :=
  "\"></i>\n                    "

/-- Template chunk between the toggle label and the delete `onclick` id. -/
def chunkBeforeDeleteId : String :=
  "\n                </button>\n                <button class=\"delete\" onclick=\"deleteTodo("

/-- Final template chunk: the delete button body and closing tags. -/
def chunkTail : String :=
  ")\">\n                    <i class=\"fas fa-trash\"></i>\n                    Delete\n                </button>\n            </div>\n        "

/-- `todo.completed ? 'fa-undo' : 'fa-check'` — the toggle button's icon class. -/
def toggleIcon (t : Todo) : String :=
  if t.completed then "fa-undo" else "fa-check"

/-- `todo.completed ? 'Undo' : 'Complete'` — the toggle button's text label. -/
def toggleLabel (t : Todo) : String :=
  if t.completed then "Undo" else "Complete"

/-- The `innerHTML` template literal of one todo row, with its five
interpolations (`title`, `created_at`, `id` twice, and the two
`completed`-dependent fragments). -/
def todoItemInnerHTML (t : Todo) : String :=
  chunkBeforeTitle ++ t.title ++ chunkAfterTitle ++ t.created_at ++
  chunkBeforeToggleId ++ toString t.id ++ chunkBeforeToggleIcon ++ toggleIcon t ++
  chunkBeforeToggleLabel ++ toggleLabel t ++ chunkBeforeDeleteId ++ toString t.id ++
  chunkTail

/-- The row element built for one todo:
`` todoItem.className = `todo-item ${todo.completed ? 'completed' : ''}` ``
and the `innerHTML` template. -/
def mkTodoItem (t : Todo) : TodoItem :=
  { className := "todo-item " ++ (if t.completed then "completed" else ""),
    innerHTML := todoItemInnerHTML t }

/-- `displayTodos(todos)`: clears `#todoList`, then either assigns the
empty-state markup (when `todos.length === 0`) or appends one row per todo
via `todos.forEach`.  `prior` is the container's content before the call. -/
def displayTodos (todos : List Todo) (prior : TodoListEl) : TodoListEl :=
  let cleared := clearList prior
  if todos.length = 0 then
    { cleared with html := emptyStateHTML }
  else
    todos.foldl (fun el t => appendChild el (mkTodoItem t)) cleared

/-- `response.ok` of the Fetch API: status in the inclusive range 200–299. -/
def responseOk (status : Nat) : Bool :=
  200 ≤ status && status ≤ 299

/-- A network request issued via `fetch`.  `postTodo title` stands for
`POST /api/todos` with body `JSON.stringify({ title })`;
`deleteTodoReq id` / `putTodoReq id` target `/api/todos/${id}`. -/
inductive Request where
  | getTodos : Request
  | postTodo : String → Request
  | deleteTodoReq : Int → Request
  | putTodoReq : Int → Request
deriving DecidableEq, Repr

/-- The JSON error body read by `addTodo` on a non-ok response; `message` is
its optional `message` field (`none` when the field is absent or not a
string). -/
structure ErrorData where
  message : Option String
deriving DecidableEq, Repr

/-- `errorData.message || 'Unknown error'` — JavaScript `||` takes the
fallback when `message` is absent or the empty string (falsy). -/
def messageOrFallback (e : ErrorData) : String :=
  match e.message with
  | some m => if m = "" then "Unknown error" else m
  | none => "Unknown error"

/-- Outcome of the `POST /api/todos` fetch in `addTodo`: either the promise
rejects (transport error), or a response arrives with `status`, and — when
its body is read — `json` is `some` parsed error data or `none` when
`response.json()` rejects (unparseable body). -/
inductive PostOutcome where
  | transportError : PostOutcome
  | response : Nat → Option ErrorData → PostOutcome
deriving DecidableEq, Repr

/-- Observable result of one `addTodo()` run: the input field's value after
the run, the fetch requests issued, the `console.error` messages (their
constant first argument), the `alert` texts, and how many times
`fetchTodos()` was invoked. -/
structure AddTodoResult where
  inputValue : String
  requests : List Request
  logs : List String
  alerts : List String
  fetchCalls : Nat
deriving DecidableEq, Repr

/-- `addTodo()`: trims the input; if the trimmed title is empty, returns
without any effect.  Otherwise posts `{ title }`; on `response.ok` clears the
input and calls `fetchTodos()`; on a non-ok response parses the error body,
logs it and alerts with the body's message or a fallback; any thrown error
(transport failure, or `response.json()` rejecting) is caught, logged and
alerted with a generic retry message. -/
def addTodo (input : String) (outcome : PostOutcome) : AddTodoResult :=
  let title := jsTrim input
  if title = "" then
    { inputValue := input, requests := [], logs := [], alerts := [], fetchCalls := 0 }
  else
    match outcome with
    | .transportError =>
        { inputValue := input, requests := [.postTodo title],
          logs := ["Error adding todo:"],
          alerts := ["Failed to add todo. Please try again."], fetchCalls := 0 }
    | .response status json =>
        if responseOk status then
          { inputValue := "", requests := [.postTodo title],
            logs := [], alerts := [], fetchCalls := 1 }
        else
          match json with
          | some errorData =>
              { inputValue := input, requests := [.postTodo title],
                logs := ["Failed to add todo:"],
                alerts := ["Failed to add todo: " ++ messageOrFallback errorData],
                fetchCalls := 0 }
          | none =>
              { inputValue := input, requests := [.postTodo title],
                logs := ["Error adding todo:"],
                alerts := ["Failed to add todo. Please try again."], fetchCalls := 0 }

/-- Outcome of the `GET /api/todos` fetch in `fetchTodos`: transport error,
or a response with `status` whose body parses to a todo array (`some todos`)
or fails to parse (`none`). -/
inductive GetOutcome where
  | transportError : GetOutcome
  | response : Nat → Option (List Todo) → GetOutcome
deriving DecidableEq, Repr

/-- Observable result of one `fetchTodos()` run: the `#todoList` content
after the run, the `console.error` messages, and the list of `displayTodos`
invocations (each with its argument). -/
structure FetchResult where
  todoList : TodoListEl
  logs : List String
  renders : List (List Todo)
deriving DecidableEq, Repr

/-- `fetchTodos()`: fetches `/api/todos`; a non-ok status throws
`Error("Failed to fetch todos")`; otherwise the body is parsed and passed to
`displayTodos`.  Every thrown error (non-ok status, parse failure, transport
failure) is caught and logged, leaving the container as it was. -/
def fetchTodos (prior : TodoListEl) (outcome : GetOutcome) : FetchResult :=
  match outcome with
  | .transportError =>
      { todoList := prior, logs := ["Error fetching todos:"], renders := [] }
  | .response status json =>
      if responseOk status then
        match json with
        | some todos =>
            { todoList := displayTodos todos prior, logs := [], renders := [todos] }
        | none =>
            { todoList := prior, logs := ["Error fetching todos:"], renders := [] }
      else
        { todoList := prior, logs := ["Error fetching todos:"], renders := [] }

/-- Outcome of a fetch whose body is never read (`deleteTodo`, `toggleTodo`):
transport error or a response with `status`. -/
inductive SimpleOutcome where
  | transportError : SimpleOutcome
  | response : Nat → SimpleOutcome
deriving DecidableEq, Repr

/-- Observable result of one `deleteTodo(id)` or `toggleTodo(id)` run. -/
structure ActionResult where
  requests : List Request
  logs : List String
  alerts : List String
  fetchCalls : Nat
deriving DecidableEq, Repr

/-- `deleteTodo(id)`: `DELETE /api/todos/${id}`; on `response.ok` calls
`fetchTodos()`; a non-ok response does nothing; a transport error is caught
and logged.  No alert is ever raised. -/
def deleteTodo (id : Int) (outcome : SimpleOutcome) : ActionResult :=
  match outcome with
  | .transportError =>
      { requests := [.deleteTodoReq id], logs := ["Error deleting todo:"],
        alerts := [], fetchCalls := 0 }
  | .response status =>
      if responseOk status then
        { requests := [.deleteTodoReq id], logs := [], alerts := [], fetchCalls := 1 }
      else
        { requests := [.deleteTodoReq id], logs := [], alerts := [], fetchCalls := 0 }

/-- `toggleTodo(id)`: `PUT /api/todos/${id}` (no body); on `response.ok`
calls `fetchTodos()`; a non-ok response does nothing; a transport error is
caught and logged.  No alert is ever raised. -/
def toggleTodo (id : Int) (outcome : SimpleOutcome) : ActionResult :=
  match outcome with
  | .transportError =>
      { requests := [.putTodoReq id], logs := ["Error toggling todo:"],
        alerts := [], fetchCalls := 0 }
  | .response status =>
      if responseOk status then
        { requests := [.putTodoReq id], logs := [], alerts := [], fetchCalls := 1 }
      else
        { requests := [.putTodoReq id], logs := [], alerts := [], fetchCalls := 0 }

/-- Sample pending task, used to exercise the theorems on concrete input. -/
def sampleTodo : Todo :=
  { id := 1, title := "Buy milk", completed := false, created_at := "2024-01-01" }

/-- Sample completed task. -/
def sampleTodoDone : Todo :=
  { id := 2, title := "Ship release", completed := true, created_at := "2024-01-02" }

/-- Sample non-trivial prior content of the `#todoList` container. -/
def samplePrior : TodoListEl :=
  { html := "stale", children := [mkTodoItem sampleTodoDone] }

/-- Appending rows one by one leaves the container's `html` unchanged and
extends its child list by the corresponding row elements, in order. -/
theorem foldl_appendChild_spec (todos : List Todo) (el : TodoListEl) :
    (todos.foldl (fun e t => appendChild e (mkTodoItem t)) el).children =
      el.children ++ todos.map mkTodoItem ∧
    (todos.foldl (fun e t => appendChild e (mkTodoItem t)) el).html = el.html := by
  induction todos generalizing el with
  | nil => simp
  | cons t ts ih =>
    simpa [appendChild] using ih { el with children := el.children ++ [mkTodoItem t] }

/-- C1: for every input whose trimmed value is non-empty, `addTodo` issues
exactly one create request carrying exactly the trimmed title as its payload,
and when the response status is in the success range (200–299) it clears the
input field and invokes `fetchTodos` exactly once. -/
theorem addTodo_creates_once_and_resyncs (input : String) (h : jsTrim input ≠ "") :
    (∀ outcome, (addTodo input outcome).requests = [Request.postTodo (jsTrim input)]) ∧
    (∀ status json, responseOk status = true →
      (addTodo input (PostOutcome.response status json)).inputValue = "" ∧
      (addTodo input (PostOutcome.response status json)).fetchCalls = 1) := by
  constructor
  · intro outcome
    unfold addTodo
    simp only [if_neg h]
    cases outcome with
    | transportError => rfl
    | response status json =>
      by_cases hok : responseOk status
      · simp [hok]
      · cases json <;> simp [hok]
  · intro status json hok
    unfold addTodo
    simp [if_neg h, hok]

theorem addTodo_creates_once_and_resyncs_witness :
    jsTrim "hi" ≠ "" ∧
    ((∀ outcome, (addTodo "hi" outcome).requests = [Request.postTodo (jsTrim "hi")]) ∧
     (∀ status json, responseOk status = true →
       (addTodo "hi" (PostOutcome.response status json)).inputValue = "" ∧
       (addTodo "hi" (PostOutcome.response status json)).fetchCalls = 1)) :=
  ⟨by decide, addTodo_creates_once_and_resyncs "hi" (by decide)⟩

/-- C2: for every non-empty todo list, `displayTodos` produces exactly one row
per element, in input order (the children are exactly the mapped rows), and
each row's toggle button is labeled "Complete" when `completed` is false and
"Undo" when it is true. -/
theorem displayTodos_one_row_per_todo (todos : List Todo) (prior : TodoListEl)
    (h : todos ≠ []) :
    (displayTodos todos prior).children = todos.map mkTodoItem ∧
    ∀ t ∈ todos, (mkTodoItem t).innerHTML =
      chunkBeforeTitle ++ t.title ++ chunkAfterTitle ++ t.created_at ++
      chunkBeforeToggleId ++ toString t.id ++ chunkBeforeToggleIcon ++
      (if t.completed then "fa-undo" else "fa-check") ++
      chunkBeforeToggleLabel ++ (if t.completed then "Undo" else "Complete") ++
      chunkBeforeDeleteId ++ toString t.id ++ chunkTail := by
  constructor
  · unfold displayTodos
    rw [if_neg (by simpa using h)]
    simpa [clearList] using (foldl_appendChild_spec todos (clearList prior)).1
  · intro t _
    rfl

theorem displayTodos_one_row_per_todo_witness :
    ([sampleTodo, sampleTodoDone] : List Todo) ≠ [] ∧
    ((displayTodos [sampleTodo, sampleTodoDone] samplePrior).children =
      [sampleTodo, sampleTodoDone].map mkTodoItem ∧
     ∀ t ∈ [sampleTodo, sampleTodoDone], (mkTodoItem t).innerHTML =
      chunkBeforeTitle ++ t.title ++ chunkAfterTitle ++ t.created_at ++
      chunkBeforeToggleId ++ toString t.id ++ chunkBeforeToggleIcon ++
      (if t.completed then "fa-undo" else "fa-check") ++
      chunkBeforeToggleLabel ++ (if t.completed then "Undo" else "Complete") ++
      chunkBeforeDeleteId ++ toString t.id ++ chunkTail) :=
  ⟨by decide, displayTodos_one_row_per_todo [sampleTodo, sampleTodoDone] samplePrior
    (by decide)⟩

set_option maxRecDepth 4096 in
/-- C3: for the empty list, `displayTodos` always produces exactly the
empty-state placeholder (whose markup contains the clipboard icon and the
explanatory text) and no list row, whatever was rendered before. -/
theorem displayTodos_empty_state (prior : TodoListEl) :
    displayTodos [] prior = { html := emptyStateHTML, children := [] } ∧
    (displayTodos [] prior).children = [] ∧
    emptyStateHTML =
      "\n            <div class=\"empty-state\">\n                <i class=\"fas " ++
      "fa-clipboard-list" ++ "\"></i>\n                <p>" ++
      "No tasks yet. Add one to get started!" ++
      "</p>\n            </div>\n        " := by
  refine ⟨rfl, rfl, by decide⟩

/-- C4: `displayTodos` clears prior content unconditionally, so it is a pure
function of its input list — the result is independent of whatever was
rendered before, and rendering the same list twice in a row yields the
identical tree. -/
theorem displayTodos_pure_and_idempotent (todos : List Todo) (p q : TodoListEl) :
    displayTodos todos p = displayTodos todos q ∧
    displayTodos todos (displayTodos todos p) = displayTodos todos p := by
  have hind : ∀ r s : TodoListEl, displayTodos todos r = displayTodos todos s := by
    intro r s
    unfold displayTodos clearList
    rfl
  exact ⟨hind p q, hind (displayTodos todos p) p⟩

/-- C5: when the input value trims to the empty string, `addTodo` is a no-op:
no request, no log, no alert, no `fetchTodos` call, input left unchanged. -/
theorem addTodo_empty_noop (input : String) (outcome : PostOutcome)
    (h : jsTrim input = "") :
    addTodo input outcome =
      { inputValue := input, requests := [], logs := [], alerts := [],
        fetchCalls := 0 } := by
  unfold addTodo
  simp [h]

theorem addTodo_empty_noop_witness :
    jsTrim "   " = "" ∧
    addTodo "   " PostOutcome.transportError =
      { inputValue := "   ", requests := [], logs := [], alerts := [],
        fetchCalls := 0 } :=
  ⟨by decide, addTodo_empty_noop "   " PostOutcome.transportError (by decide)⟩

/-- C6: on a non-success response whose body parses, `addTodo` logs the error
body, raises exactly one alert whose text contains the body's `message` field
when present (and the fallback "Unknown error" when absent), and leaves the
input field's value unchanged. -/
theorem addTodo_failure_alert (input : String) (status : Nat) (e : ErrorData)
    (hne : jsTrim input ≠ "") (hfail : responseOk status = false) :
    (addTodo input (PostOutcome.response status (some e))).logs =
      ["Failed to add todo:"] ∧
    (addTodo input (PostOutcome.response status (some e))).inputValue = input ∧
    (addTodo input (PostOutcome.response status (some e))).alerts =
      ["Failed to add todo: " ++ messageOrFallback e] ∧
    (∀ m, e.message = some m →
      ∃ a b, "Failed to add todo: " ++ messageOrFallback e = a ++ (m ++ b)) ∧
    (e.message = none → messageOrFallback e = "Unknown error") := by
  refine ⟨?_, ?_, ?_, ?_, ?_⟩
  · unfold addTodo
    simp [hne, hfail]
  · unfold addTodo
    simp [hne, hfail]
  · unfold addTodo
    simp [hne, hfail]
  · intro m hm
    by_cases hempty : m = ""
    · exact ⟨"", "Failed to add todo: " ++ messageOrFallback e, by
        subst hempty; simp⟩
    · refine ⟨"Failed to add todo: ", "", ?_⟩
      simp [messageOrFallback, hm, hempty]
  · intro hm
    simp [messageOrFallback, hm]

theorem addTodo_failure_alert_witness :
    jsTrim "note" ≠ "" ∧ responseOk 400 = false ∧
    ((addTodo "note" (PostOutcome.response 400 (some ⟨some "title too long"⟩))).logs =
      ["Failed to add todo:"] ∧
     (addTodo "note" (PostOutcome.response 400 (some ⟨some "title too long"⟩))).inputValue =
      "note" ∧
     (addTodo "note" (PostOutcome.response 400 (some ⟨some "title too long"⟩))).alerts =
      ["Failed to add todo: " ++ messageOrFallback ⟨some "title too long"⟩] ∧
     (∀ m, (ErrorData.mk (some "title too long")).message = some m →
       ∃ a b, "Failed to add todo: " ++ messageOrFallback ⟨some "title too long"⟩ =
         a ++ (m ++ b)) ∧
     ((ErrorData.mk (some "title too long")).message = none →
       messageOrFallback ⟨some "title too long"⟩ = "Unknown error")) :=
  ⟨by decide, rfl,
   addTodo_failure_alert "note" 400 ⟨some "title too long"⟩ (by decide) rfl⟩

/-- C7: when the `GET /api/todos` response has a non-success status,
`fetchTodos` throws (the caught-and-logged `FetchError`), performs no render,
and leaves the container exactly as it was. -/
theorem fetchTodos_failure_aborts (prior : TodoListEl) (status : Nat)
    (json : Option (List Todo)) (hfail : responseOk status = false) :
    fetchTodos prior (GetOutcome.response status json) =
      { todoList := prior, logs := ["Error fetching todos:"], renders := [] } := by
  unfold fetchTodos
  simp [hfail]

theorem fetchTodos_failure_aborts_witness :
    responseOk 500 = false ∧
    fetchTodos samplePrior (GetOutcome.response 500 (some [sampleTodo])) =
      { todoList := samplePrior, logs := ["Error fetching todos:"],
        renders := [] } :=
  ⟨rfl, fetchTodos_failure_aborts samplePrior 500 (some [sampleTodo]) rfl⟩

/-- C8 counterexample: on a failure response (HTTP 404), `deleteTodo` and
`toggleTodo` log nothing at all — contradicting the claim that every failure
response is logged. -/
theorem deleteToggle_http_failure_not_logged :
    (deleteTodo 1 (SimpleOutcome.response 404)).logs = [] ∧
    (toggleTodo 1 (SimpleOutcome.response 404)).logs = [] := by
  constructor <;> rfl

/-- C8 (amended): on any non-success outcome, `deleteTodo` and `toggleTodo`
raise no alert and trigger no re-fetch; a transport error is logged, while a
failure response produces no log at all. -/
theorem deleteToggle_failure_silent (id : Int) (outcome : SimpleOutcome)
    (h : ∀ status, outcome = SimpleOutcome.response status →
      responseOk status = false) :
    (deleteTodo id outcome).alerts = [] ∧ (deleteTodo id outcome).fetchCalls = 0 ∧
    (toggleTodo id outcome).alerts = [] ∧ (toggleTodo id outcome).fetchCalls = 0 ∧
    (outcome = SimpleOutcome.transportError →
      (deleteTodo id outcome).logs = ["Error deleting todo:"] ∧
      (toggleTodo id outcome).logs = ["Error toggling todo:"]) ∧
    (∀ status, outcome = SimpleOutcome.response status →
      (deleteTodo id outcome).logs = [] ∧ (toggleTodo id outcome).logs = []) := by
  cases outcome with
  | transportError =>
    refine ⟨rfl, rfl, rfl, rfl, fun _ => ⟨rfl, rfl⟩, ?_⟩
    intro status hstatus
    cases hstatus
  | response status =>
    have hfail : responseOk status = false := h status rfl
    unfold deleteTodo toggleTodo
    simp [hfail]

theorem deleteToggle_failure_silent_witness :
    (∀ status, SimpleOutcome.response 404 = SimpleOutcome.response status →
      responseOk status = false) ∧
    ((deleteTodo 1 (SimpleOutcome.response 404)).alerts = [] ∧
     (deleteTodo 1 (SimpleOutcome.response 404)).fetchCalls = 0 ∧
     (toggleTodo 1 (SimpleOutcome.response 404)).alerts = [] ∧
     (toggleTodo 1 (SimpleOutcome.response 404)).fetchCalls = 0 ∧
     (SimpleOutcome.response 404 = SimpleOutcome.transportError →
       (deleteTodo 1 (SimpleOutcome.response 404)).logs = ["Error deleting todo:"] ∧
       (toggleTodo 1 (SimpleOutcome.response 404)).logs = ["Error toggling todo:"]) ∧
     (∀ status, SimpleOutcome.response 404 = SimpleOutcome.response status →
       (deleteTodo 1 (SimpleOutcome.response 404)).logs = [] ∧
       (toggleTodo 1 (SimpleOutcome.response 404)).logs = [])) :=
  ⟨fun s hs => by cases hs; rfl,
   deleteToggle_failure_silent 1 (SimpleOutcome.response 404)
     (fun s hs => by cases hs; rfl)⟩

/-- C9: every todo in the rendered list gets a row whose markup embeds the
title string verbatim — the row's `innerHTML` is a fixed prefix, then the
title unaltered, then a remainder that does not depend on the title. -/
theorem displayTodos_title_verbatim (todos : List Todo) (prior : TodoListEl)
    (t : Todo) (h : t ∈ todos) :
    mkTodoItem t ∈ (displayTodos todos prior).children ∧
    (mkTodoItem t).innerHTML =
      chunkBeforeTitle ++ t.title ++
        (chunkAfterTitle ++ t.created_at ++ chunkBeforeToggleId ++ toString t.id ++
         chunkBeforeToggleIcon ++ toggleIcon t ++ chunkBeforeToggleLabel ++
         toggleLabel t ++ chunkBeforeDeleteId ++ toString t.id ++ chunkTail) := by
  constructor
  · have hne : todos.length ≠ 0 := by
      intro hlen
      rw [List.length_eq_zero] at hlen
      subst hlen
      exact absurd h (List.not_mem_nil t)
    unfold displayTodos
    rw [if_neg hne]
    rw [(foldl_appendChild_spec todos (clearList prior)).1]
    exact List.mem_append_right _ (List.mem_map_of_mem mkTodoItem h)
  · simp [mkTodoItem, todoItemInnerHTML, String.append_assoc]

theorem displayTodos_title_verbatim_witness :
    sampleTodoDone ∈ ([sampleTodo, sampleTodoDone] : List Todo) ∧
    (mkTodoItem sampleTodoDone ∈
      (displayTodos [sampleTodo, sampleTodoDone] samplePrior).children ∧
     (mkTodoItem sampleTodoDone).innerHTML =
      chunkBeforeTitle ++ sampleTodoDone.title ++
        (chunkAfterTitle ++ sampleTodoDone.created_at ++ chunkBeforeToggleId ++
         toString sampleTodoDone.id ++ chunkBeforeToggleIcon ++
         toggleIcon sampleTodoDone ++ chunkBeforeToggleLabel ++
         toggleLabel sampleTodoDone ++ chunkBeforeDeleteId ++
         toString sampleTodoDone.id ++ chunkTail)) :=
  ⟨by simp [sampleTodo, sampleTodoDone],
   displayTodos_title_verbatim [sampleTodo, sampleTodoDone] samplePrior
     sampleTodoDone (by simp [sampleTodo, sampleTodoDone])⟩

/-- C10: on a non-success response whose body fails to parse as JSON,
`addTodo` falls into the catch handler: it logs the parse error, raises the
generic retry alert, leaves the input unchanged, and calls no re-fetch. -/
theorem addTodo_unparseable_error_body (input : String) (status : Nat)
    (hne : jsTrim input ≠ "") (hfail : responseOk status = false) :
    addTodo input (PostOutcome.response status none) =
      { inputValue := input, requests := [Request.postTodo (jsTrim input)],
        logs := ["Error adding todo:"],
        alerts := ["Failed to add todo. Please try again."], fetchCalls := 0 } := by
  unfold addTodo
  simp [hne, hfail]

theorem addTodo_unparseable_error_body_witness :
    jsTrim "x" ≠ "" ∧ responseOk 500 = false ∧
    addTodo "x" (PostOutcome.response 500 none) =
      { inputValue := "x", requests := [Request.postTodo (jsTrim "x")],
        logs := ["Error adding todo:"],
        alerts := ["Failed to add todo. Please try again."], fetchCalls := 0 } :=
  ⟨by decide, rfl, addTodo_unparseable_error_body "x" 500 (by decide) rfl⟩

end TodoApp
